import Mathlib

/-!
Verification of the retrieval-augmented query pipeline of the
Physical-AI textbook chatbot backend.

The development shallowly embeds the Python source:
* `src/services/embedding_service.py` — the token-window chunker
  `EmbeddingService.chunk_text` (tokens modelled as `List Nat`, the
  tiktoken encoding being an external collaborator);
* `src/simple_upload.py` — the word-count chunker `chunk_text`, the
  per-file ingestion driver `upload_file` and the batch driver `main`;
* `src/main.py` — the `/query` endpoint `query_chatbot`, with the
  embedding, vector-search and generation providers modelled as
  oracles recorded in a call trace.

Python integers and floats are modelled as `Int`/`ℚ`; every fallible
provider call is an `Except String` value supplied by the environment.
-/

namespace RAG

/-! ### Python primitives -/

/-- Normalisation of a Python slice index `i` for a list of length
`len`: a negative index counts from the end (clamped at 0), a
non-negative one is clamped at `len`. -/
def pyIdx (len : Nat) (i : Int) : Nat :=
  if i < 0 then len - (-i).toNat else min i.toNat len

/-- Python slicing `l[a:b]`. -/
def pySlice {α : Type} (l : List α) (a b : Int) : List α :=
  (l.drop (pyIdx l.length a)).take (pyIdx l.length b - pyIdx l.length a)

/-- Python `str.lower()`: lower-case every character. -/
def pyLower (s : String) : String :=
  ⟨s.data.map Char.toLower⟩

/-- Python `str.strip()` with no argument: remove leading and trailing
whitespace. -/
def pyStrip (s : String) : String :=
  ⟨List.reverse (List.dropWhile Char.isWhitespace
    (List.reverse (List.dropWhile Char.isWhitespace s.data)))⟩

/-- Python `str.split()` with no argument: split on runs of whitespace,
dropping empty pieces. -/
def pySplit (s : String) : List String :=
  (s.split (fun c => c.isWhitespace)).filter (fun w => ¬ w.isEmpty)

/-- Python `round` to an integer: round half to even. -/
def pyRound (q : ℚ) : ℤ :=
  let f := ⌊q⌋
  let r := q - f
  if r < 1/2 then f
  else if 1/2 < r then f + 1
  else if f % 2 = 0 then f else f + 1

/-- Python `round(q, 2)`. -/
def pyRound2 (q : ℚ) : ℚ :=
  (pyRound (q * 100) : ℚ) / 100

/-! ### `EmbeddingService.chunk_text` (src/services/embedding_service.py)

The Python loop

```
start = 0
while start < len(tokens):
    end = start + self.chunk_size
    chunks.append(encoding.decode(tokens[start:end]))
    start = end - self.chunk_overlap
```

is embedded with explicit fuel because it does not terminate for all
parameter values; `start` is an `Int` because `end - overlap` can go
negative in Python. Chunks are kept as token lists (`encoding.decode`
is the external tokenizer collaborator). -/

/-- One step per loop iteration of `chunk_text`; `none` means the fuel
ran out, i.e. the loop was still running. -/
def chunkTextGo (chunkSize chunkOverlap : Nat) (tokens : List Nat) :
    Nat → Int → Option (List (List Nat))
  | 0, _ => none
  | fuel + 1, start =>
    if start < (tokens.length : Int) then
      match chunkTextGo chunkSize chunkOverlap tokens fuel
          ((start + chunkSize) - chunkOverlap) with
      | none => none
      | some rest => some (pySlice tokens start (start + chunkSize) :: rest)
    else
      some []

/-- `EmbeddingService.chunk_text`, supplied with fuel
`tokens.length + 1`, which is enough whenever `overlap < window_size`. -/
def chunk_text (chunkSize chunkOverlap : Nat) (tokens : List Nat) :
    Option (List (List Nat)) :=
  chunkTextGo chunkSize chunkOverlap tokens (tokens.length + 1) 0

/-- The last `n` units of a chunk. -/
def lastUnits {α : Type} (n : Nat) (l : List α) : List α :=
  l.drop (l.length - n)

/-! ### `chunk_text` of src/simple_upload.py (word-count chunker) -/

/-- The loop of `simple_upload.chunk_text`: accumulate words into
`current`, counting `len(word) + 1` characters per word, and flush the
accumulator whenever the running size reaches `size`; a nonempty
trailing accumulator is flushed at the end. Chunks are kept as word
lists; the source joins each with single spaces. -/
def chunkWordsGo (size : Nat) : List String → List String → Nat → List (List String)
  | [], current, _ => if current.isEmpty then [] else [current]
  | w :: ws, current, currentSize =>
    let current' := current ++ [w]
    let currentSize' := currentSize + w.length + 1
    if size ≤ currentSize' then current' :: chunkWordsGo size ws [] 0
    else chunkWordsGo size ws current' currentSize'

/-- Word-level view of `simple_upload.chunk_text text size`:
`text.split()` followed by the greedy accumulation loop. -/
def wordChunks (size : Nat) (text : String) : List (List String) :=
  chunkWordsGo size (pySplit text) [] 0

/-- `simple_upload.chunk_text`: each word group joined with single
spaces. -/
def simpleChunkText (text : String) (size : Nat) : List String :=
  (wordChunks size text).map (fun c => String.intercalate " " c)

/-! ### The `/query` endpoint `query_chatbot` (src/main.py)

The three external providers (OpenAI embeddings, Qdrant
`query_points`, Gemini `generate_content`) are oracles whose outcomes
are fixed by a `QueryEnv`; the endpoint records each provider call it
makes in a trace. A raised provider exception is an `Except.error`,
which the endpoint's `except` block re-raises as an HTTP 500 error. -/

/-- A Qdrant search hit: id, similarity score, and the payload fields
the endpoint reads (`text`, `module`, `file`). -/
structure Hit where
  id : Nat
  score : ℚ
  text : String
  module : String
  file : String
  deriving Repr, DecidableEq

/-- One entry of the endpoint's response `sources` list. -/
structure Source where
  id : Nat
  score : ℚ
  text : String
  module : String
  file : String
  deriving Repr, DecidableEq

/-- The endpoint's response body: answer text, sources, confidence. -/
structure Answer where
  answer : String
  sources : List Source
  confidence : ℚ
  deriving Repr, DecidableEq

/-- The provider calls `query_chatbot` can make, in order. -/
inductive ProviderCall where
  | embed
  | search
  | generate
  deriving Repr, DecidableEq

/-- Outcomes of the three provider calls for one request. -/
structure QueryEnv where
  embedResult : Except String (List ℚ)
  searchResult : Except String (List Hit)
  genResult : Except String String

/-- The list of vague inputs checked by `query_chatbot`. -/
def vagueInputs : List String :=
  ["hi", "hello", "hey", "ji", "yes", "no", "ok", "okay", "thanks", "thank you"]

/-- The canned greeting answer of `query_chatbot`. -/
def cannedAnswer : String :=
  "Hello! I\x27m your AI assistant for the Physical AI & Humanoid Robotics Lab textbook. What would you like to learn about? You can ask me about ROS 2, Gazebo simulation, Isaac Sim, humanoid robotics, or hardware setup."

/-- `query_chatbot` of src/main.py: classify, embed, search, build
sources, generate, score. Returns the endpoint result together with
the trace of provider calls made. Context assembly only feeds the
generation provider, whose outcome is the oracle `env.genResult`. -/
def query_chatbot (env : QueryEnv) (question : String)
    (_maxResults : Nat) (_selectedText : Option String) :
    Except String Answer × List ProviderCall :=
  if vagueInputs.contains (pyStrip (pyLower question)) then
    (Except.ok ⟨cannedAnswer, [], 1⟩, [])
  else
    match env.embedResult with
    | .error e => (.error e, [.embed])
    | .ok _ =>
      match env.searchResult with
      | .error e => (.error e, [.embed, .search])
      | .ok hits =>
        let sources := hits.map (fun h => Source.mk h.id h.score h.text h.module h.file)
        match env.genResult with
        | .error e => (.error e, [.embed, .search, .generate])
        | .ok text =>
          let avgScore : ℚ :=
            if sources.isEmpty then 0
            else (sources.map Source.score).sum / sources.length
          (.ok ⟨text, sources, pyRound2 avgScore⟩, [.embed, .search, .generate])

/-! ### Ingestion driver (src/simple_upload.py) -/

/-- Per-document environment for `upload_file`: the outcome of reading
the file, the markup-stripping preprocessor `clean_content` (which the
spec designates an external preprocessing concern), and the outcomes
of the per-chunk embedding calls and of the final upsert. -/
structure DocEnv where
  readResult : Except String String
  clean : String → String
  embedResult : String → Except String Unit
  upsertResult : Except String Unit

/-- The embedding loop of `upload_file`: one provider call per chunk,
a raised call aborting the loop. -/
def embedChunks (f : String → Except String Unit) : List String → Except String Unit
  | [] => .ok ()
  | c :: cs =>
    match f c with
    | .error e => .error e
    | .ok _ => embedChunks f cs

/-- The `try` body of `upload_file`: read, clean, skip documents whose
cleaned text is shorter than 50 characters (reporting 0), chunk, embed
every chunk, upsert, and report the number of chunks. -/
def uploadBody (env : DocEnv) : Except String Nat :=
  match env.readResult with
  | .error e => .error e
  | .ok content =>
    let cleaned := env.clean content
    if cleaned.length < 50 then .ok 0
    else
      let chunks := simpleChunkText cleaned 1000
      match embedChunks env.embedResult chunks with
      | .error e => .error e
      | .ok _ =>
        match env.upsertResult with
        | .error e => .error e
        | .ok _ => .ok chunks.length

/-- `upload_file`: any exception raised by the body is caught and
reported as a chunk count of 0. -/
def upload_file (env : DocEnv) : Nat :=
  match uploadBody env with
  | .ok n => n
  | .error _ => 0

/-- The accumulation loop of `main` in src/simple_upload.py:
`total += await upload_file(file)` over the batch. -/
def uploadBatchGo : List DocEnv → Nat → Nat
  | [], total => total
  | d :: ds, total => uploadBatchGo ds (total + upload_file d)

/-- Total chunk count reported by `main` for a batch of documents. -/
def uploadBatch (docs : List DocEnv) : Nat :=
  uploadBatchGo docs 0

/-! ### Concrete environments used to instantiate the theorems -/

/-- An environment in which all three query providers succeed and the
search returns no hits. -/
def envEmptySearch : QueryEnv :=
  ⟨.ok [1/2], .ok [], .ok "generated"⟩

/-- An environment with two successful hits of scores 0.9 and 0.8. -/
def envTwoHits : QueryEnv :=
  ⟨.ok [1/2], .ok [⟨1, 9/10, "tA", "m1", "f1"⟩, ⟨2, 8/10, "tB", "m1", "f2"⟩], .ok "generated"⟩

/-- An environment in which the vector search raises because the
collection does not exist. -/
def envMissingIndex : QueryEnv :=
  ⟨.ok [1/2], .error "Collection robotics_book_embeddings not found", .ok "generated"⟩

/-- An environment whose single hit carries a negative cosine
similarity score. -/
def envNegativeScore : QueryEnv :=
  ⟨.ok [1/2], .ok [⟨1, -1, "tA", "m1", "f1"⟩], .ok "generated"⟩

/-- A document whose file read raises. -/
def failDoc : DocEnv :=
  ⟨.error "boom", id, fun _ => .ok (), .ok ()⟩

/-! ## Theorems -/

theorem chunkWordsGo_join (size : Nat) :
    ∀ (ws current : List String) (n : Nat),
      (chunkWordsGo size ws current n).join = current ++ ws := by
  intro ws
  induction ws with
  | nil =>
    intro current n
    cases current <;> simp [chunkWordsGo]
  | cons w ws ih =>
    intro current n
    simp only [chunkWordsGo]
    split
    · simp [ih]
    · simp [ih]

theorem chunkWordsGo_ne_nil (size : Nat) :
    ∀ (ws current : List String) (n : Nat) (c : List String),
      c ∈ chunkWordsGo size ws current n → c ≠ [] := by
  intro ws
  induction ws with
  | nil =>
    intro current n c hc
    cases current with
    | nil => simp [chunkWordsGo] at hc
    | cons a as =>
      simp [chunkWordsGo] at hc
      simp [hc]
  | cons w ws ih =>
    intro current n c hc
    simp only [chunkWordsGo] at hc
    split at hc
    · rcases List.mem_cons.mp hc with h | h
      · simp [h]
      · exact ih [] 0 c h
    · exact ih _ _ c hc

/-- C10: the word-count chunker of the ingestion path partitions the
whitespace-separated word sequence of the input: the emitted word
groups are nonempty and their concatenation is exactly `text.split()`,
in order, each word occurrence appearing exactly once, so adjacent
chunks share no word occurrence. -/
theorem simple_chunker_partitions_words (size : Nat) (text : String) :
    (wordChunks size text).join = pySplit text ∧
      ∀ c ∈ wordChunks size text, c ≠ [] := by
  constructor
  · simpa using chunkWordsGo_join size (pySplit text) [] 0
  · intro c hc
    exact chunkWordsGo_ne_nil size (pySplit text) [] 0 c hc

/-- C1: a question that, lower-cased and trimmed, is one of "hi",
"hello", "hey", "ok", "thanks" short-circuits `query_chatbot`: the
canned answer is returned with empty sources and confidence exactly 1,
and no embedding, search, or generation provider call is made. -/
theorem greeting_short_circuit (env : QueryEnv) (question : String)
    (k : Nat) (sel : Option String)
    (h : pyStrip (pyLower question) ∈ (["hi", "hello", "hey", "ok", "thanks"] : List String)) :
    query_chatbot env question k sel = (Except.ok ⟨cannedAnswer, [], 1⟩, []) := by
  have hc : vagueInputs.contains (pyStrip (pyLower question)) = true := by
    simp only [List.mem_cons, List.not_mem_nil, or_false] at h
    rcases h with h | h | h | h | h <;> rw [h] <;> decide
  simp only [query_chatbot, hc]
  rfl

/-- Witness for C1 at the concrete question `" Hello "`. -/
theorem greeting_short_circuit_witness :
    (pyStrip (pyLower " Hello ") ∈ (["hi", "hello", "hey", "ok", "thanks"] : List String)) ∧
      query_chatbot envTwoHits " Hello " 5 none = (Except.ok ⟨cannedAnswer, [], 1⟩, []) :=
  ⟨by decide, greeting_short_circuit envTwoHits " Hello " 5 none (by decide)⟩

/-- C9: the short-circuit set is strictly larger than the spec's
examples: "ji", "yes", "no", "okay" and "thank you" (lower-cased,
trimmed) also bypass retrieval and generation entirely, returning the
canned answer with empty sources and confidence 1. -/
theorem extra_vague_inputs_short_circuit (env : QueryEnv) (question : String)
    (k : Nat) (sel : Option String)
    (h : pyStrip (pyLower question) ∈ (["ji", "yes", "no", "okay", "thank you"] : List String)) :
    query_chatbot env question k sel = (Except.ok ⟨cannedAnswer, [], 1⟩, []) := by
  have hc : vagueInputs.contains (pyStrip (pyLower question)) = true := by
    simp only [List.mem_cons, List.not_mem_nil, or_false] at h
    rcases h with h | h | h | h | h <;> rw [h] <;> decide
  simp only [query_chatbot, hc]
  rfl

/-- Witness for C9 at the concrete question `"Thank You "`. -/
theorem extra_vague_inputs_short_circuit_witness :
    (pyStrip (pyLower "Thank You ") ∈ (["ji", "yes", "no", "okay", "thank you"] : List String)) ∧
      query_chatbot envTwoHits "Thank You " 5 none = (Except.ok ⟨cannedAnswer, [], 1⟩, []) :=
  ⟨by decide, extra_vague_inputs_short_circuit envTwoHits "Thank You " 5 none (by decide)⟩

theorem uploadBatchGo_add (ds : List DocEnv) :
    ∀ t : Nat, uploadBatchGo ds t = t + uploadBatchGo ds 0 := by
  induction ds with
  | nil => intro t; simp [uploadBatchGo]
  | cons d ds ih =>
    intro t
    simp only [uploadBatchGo]
    rw [ih (t + upload_file d), ih (0 + upload_file d)]
    omega

/-- C8: a document whose processing raises at any stage, or whose
cleaned text falls below the 50-character floor (yielding no chunks),
is reported with chunk count 0 without raising, and the batch driver
goes on to the remaining documents, whose total is unaffected. -/
theorem upload_failure_reports_zero (env : DocEnv) (rest : List DocEnv)
    (h : (∃ e, uploadBody env = .error e) ∨
      ∃ c, env.readResult = .ok c ∧ (env.clean c).length < 50) :
    upload_file env = 0 ∧ uploadBatch (env :: rest) = uploadBatch rest := by
  have h0 : upload_file env = 0 := by
    rcases h with ⟨e, he⟩ | ⟨c, hc, hlen⟩
    · simp [upload_file, he]
    · simp [upload_file, uploadBody, hc, hlen]
  refine ⟨h0, ?_⟩
  simp [uploadBatch, uploadBatchGo, h0]

/-- Witness for C8 at a document whose read raises `"boom"`. -/
theorem upload_failure_reports_zero_witness :
    upload_file failDoc = 0 ∧ uploadBatch [failDoc] = uploadBatch [] :=
  upload_failure_reports_zero failDoc [] (Or.inl ⟨"boom", rfl⟩)

theorem pyRound2_zero : pyRound2 0 = 0 := by
  norm_num [pyRound2, pyRound]

theorem le_pyRound (n : ℤ) (q : ℚ) (h : (n : ℚ) ≤ q) : n ≤ pyRound q := by
  have hf : n ≤ ⌊q⌋ := Int.le_floor.mpr h
  simp only [pyRound]
  split_ifs <;> omega

theorem pyRound_le (n : ℤ) (q : ℚ) (h : q ≤ (n : ℚ)) : pyRound q ≤ n := by
  have hf : ⌊q⌋ ≤ n := by
    have := Int.floor_le_floor h
    rwa [Int.floor_intCast] at this
  have hfq : (⌊q⌋ : ℚ) ≤ q := Int.floor_le q
  simp only [pyRound]
  split_ifs with h1 h2 h3
  · exact hf
  · have hlt : (⌊q⌋ : ℚ) < (n : ℚ) := by linarith
    have : ⌊q⌋ < n := by exact_mod_cast hlt
    omega
  · exact hf
  · have hr : q - (⌊q⌋ : ℚ) = 1/2 := le_antisymm (not_lt.mp h2) (not_lt.mp h1)
    have hlt : (⌊q⌋ : ℚ) < (n : ℚ) := by linarith
    have : ⌊q⌋ < n := by exact_mod_cast hlt
    omega

theorem pySlice_natCast {α : Type} (l : List α) (s size : Nat) :
    pySlice l (s : Int) ((s : Int) + (size : Int)) = (l.drop s).take size := by
  unfold pySlice pyIdx
  have h1 : ¬ ((s : Int) < 0) := by omega
  have h2 : ¬ ((s : Int) + (size : Int) < 0) := by omega
  rw [if_neg h1, if_neg h2]
  have h3 : (s : Int).toNat = s := Int.toNat_natCast s
  have h4 : ((s : Int) + (size : Int)).toNat = s + size := by omega
  rw [h3, h4]
  by_cases hs : s ≤ l.length
  · have hmin : min s l.length = s := min_eq_left hs
    rw [hmin]
    have harith : min (s + size) l.length - s = min size (l.length - s) := by omega
    rw [harith]
    rw [List.take_eq_take]
    simp [List.length_drop]
  · push_neg at hs
    have hmin : min s l.length = l.length := min_eq_right (le_of_lt hs)
    rw [hmin]
    rw [List.drop_eq_nil_of_le le_rfl, List.drop_eq_nil_of_le (le_of_lt hs)]
    simp

theorem take_drop_overlap {α : Type} (l : List α) (s size overlap : Nat)
    (hov : overlap ≤ size) (hlen : s + size ≤ l.length) :
    lastUnits overlap ((l.drop s).take size) =
      ((l.drop (s + size - overlap)).take size).take overlap := by
  have hlen1 : ((l.drop s).take size).length = size := by
    rw [List.length_take, List.length_drop]
    omega
  unfold lastUnits
  rw [hlen1, List.drop_take, List.drop_drop, List.take_take]
  have e1 : size - (size - overlap) = overlap := by omega
  have e2 : s + (size - overlap) = s + size - overlap := by omega
  have e3 : min overlap size = overlap := min_eq_left hov
  rw [e1, e2, e3]

/-- Scores of the sources built from a hit list: the plumbing between
the search hits and the response `sources`. -/
theorem sources_confidence_arg (hits : List Hit) :
    (if (hits.map (fun h => Source.mk h.id h.score h.text h.module h.file)).isEmpty then (0 : ℚ)
      else ((hits.map (fun h => Source.mk h.id h.score h.text h.module h.file)).map
        Source.score).sum /
        (hits.map (fun h => Source.mk h.id h.score h.text h.module h.file)).length) =
      (if hits = [] then 0 else (hits.map Hit.score).sum / hits.length) := by
  cases hits with
  | nil => rfl
  | cons a l =>
    have h1 : ((a :: l).map (fun h => Source.mk h.id h.score h.text h.module h.file)).isEmpty
        = false := rfl
    rw [h1]
    rw [if_neg (by simp : ¬ (a :: l = []))]
    simp only [Bool.false_eq_true, if_false, List.map_map, List.length_map]
    rfl

/-- Unfolding of `query_chatbot` on the non-short-circuit path when
all three providers succeed. -/
theorem query_chatbot_ok (env : QueryEnv) (question : String) (k : Nat) (sel : Option String)
    (emb : List ℚ) (hits : List Hit) (txt : String)
    (hv : vagueInputs.contains (pyStrip (pyLower question)) = false)
    (he : env.embedResult = .ok emb)
    (hs : env.searchResult = .ok hits)
    (hg : env.genResult = .ok txt) :
    query_chatbot env question k sel =
      (.ok ⟨txt, hits.map (fun h => Source.mk h.id h.score h.text h.module h.file),
        pyRound2 (if hits = [] then 0 else (hits.map Hit.score).sum / hits.length)⟩,
       [.embed, .search, .generate]) := by
  simp only [query_chatbot, hv, Bool.false_eq_true, if_false, he, hs, hg]
  rw [sources_confidence_arg]

/-- Unfolding of `query_chatbot` on the non-short-circuit path when
the vector search raises. -/
theorem query_chatbot_search_error (env : QueryEnv) (question : String) (k : Nat)
    (sel : Option String) (emb : List ℚ) (e : String)
    (hv : vagueInputs.contains (pyStrip (pyLower question)) = false)
    (he : env.embedResult = .ok emb)
    (hs : env.searchResult = .error e) :
    query_chatbot env question k sel = (.error e, [.embed, .search]) := by
  simp only [query_chatbot, hv, Bool.false_eq_true, if_false, he, hs]

/-- C2: on the non-short-circuit path with all providers succeeding,
the confidence of the returned answer is the arithmetic mean of the
similarity scores of the retrieved hits rounded to 2 decimal places,
and is exactly 0 when the hit sequence is empty. -/
theorem confidence_is_rounded_mean (env : QueryEnv) (question : String) (k : Nat)
    (sel : Option String) (emb : List ℚ) (hits : List Hit) (txt : String)
    (hv : vagueInputs.contains (pyStrip (pyLower question)) = false)
    (he : env.embedResult = .ok emb)
    (hs : env.searchResult = .ok hits)
    (hg : env.genResult = .ok txt) :
    (query_chatbot env question k sel).1.map Answer.confidence =
      .ok (pyRound2 (if hits = [] then 0 else (hits.map Hit.score).sum / hits.length)) ∧
      (hits = [] →
        (query_chatbot env question k sel).1.map Answer.confidence = .ok 0) := by
  rw [query_chatbot_ok env question k sel emb hits txt hv he hs hg]
  constructor
  · rfl
  · intro hnil
    subst hnil
    simp [Except.map, pyRound2_zero]

/-- Witness for C2 at two hits with scores 0.9 and 0.8: the reported
confidence is `round(0.85, 2) = 0.85`. -/
theorem confidence_is_rounded_mean_witness :
    (query_chatbot envTwoHits "what is ros" 5 none).1.map Answer.confidence =
      .ok (17/20) := by
  rw [(confidence_is_rounded_mean envTwoHits "what is ros" 5 none [1/2]
    [⟨1, 9/10, "tA", "m1", "f1"⟩, ⟨2, 8/10, "tB", "m1", "f2"⟩] "generated"
    (by decide) rfl rfl rfl).1]
  congr 1
  rw [if_neg (by simp)]
  simp only [List.map_cons, List.map_nil, List.sum_cons, List.sum_nil, List.length_cons,
    List.length_nil, pyRound2, pyRound]
  norm_num

/-- C3 (amended): with all providers succeeding and the index merely
EMPTY, the query completes with zero sources and confidence 0 rather
than an error; but when the collection is MISSING the search call
raises, and `query_chatbot` surfaces that error (re-raised as an HTTP
500) instead of degrading to an empty result. -/
theorem empty_index_degrades_missing_index_raises (env : QueryEnv) (question : String)
    (k : Nat) (sel : Option String) (emb : List ℚ) (txt : String)
    (hv : vagueInputs.contains (pyStrip (pyLower question)) = false)
    (he : env.embedResult = .ok emb)
    (hg : env.genResult = .ok txt) :
    (env.searchResult = .ok [] →
      (query_chatbot env question k sel).1 = .ok ⟨txt, [], 0⟩) ∧
    (∀ e, env.searchResult = .error e →
      (query_chatbot env question k sel).1 = .error e) := by
  constructor
  · intro hs
    rw [query_chatbot_ok env question k sel emb [] txt hv he hs hg]
    simp [pyRound2_zero]
  · intro e hs
    rw [query_chatbot_search_error env question k sel emb e hv he hs]

/-- Witness for C3 (amended) at an environment whose search returns no
hits: the query completes with zero sources and confidence 0. -/
theorem empty_index_degrades_witness :
    (query_chatbot envEmptySearch "what is ros" 5 none).1 = .ok ⟨"generated", [], 0⟩ :=
  (empty_index_degrades_missing_index_raises envEmptySearch "what is ros" 5 none [1/2]
    "generated" (by decide) rfl rfl).1 rfl

/-- C3 counterexample: with the collection missing, the search raises
and the query surfaces the error instead of completing with zero
sources and confidence 0 — refuting the claim that a query issued
while the collection is missing completes without failing. -/
theorem missing_index_raises_counterexample :
    (query_chatbot envMissingIndex "what is ros" 5 none).1 =
      .error "Collection robotics_book_embeddings not found" := by
  rw [query_chatbot_search_error envMissingIndex "what is ros" 5 none [1/2]
    "Collection robotics_book_embeddings not found" (by decide) rfl rfl]

/-- C7 (amended): on the non-short-circuit path with all providers
succeeding, IF every similarity score returned by the vector index
lies in [0,1], the returned confidence is an integer number of
hundredths `n/100` with `0 ≤ n ≤ 100`, hence lies in [0,1]; the code
performs no clamping, so this fails for scores outside [0,1]. -/
theorem confidence_in_unit_interval (env : QueryEnv) (question : String) (k : Nat)
    (sel : Option String) (emb : List ℚ) (hits : List Hit) (txt : String)
    (hv : vagueInputs.contains (pyStrip (pyLower question)) = false)
    (he : env.embedResult = .ok emb)
    (hs : env.searchResult = .ok hits)
    (hg : env.genResult = .ok txt)
    (hscore : ∀ h ∈ hits, 0 ≤ h.score ∧ h.score ≤ 1) :
    ∃ n : ℤ, 0 ≤ n ∧ n ≤ 100 ∧
      (query_chatbot env question k sel).1.map Answer.confidence = .ok ((n : ℚ) / 100) ∧
      0 ≤ ((n : ℚ) / 100) ∧ ((n : ℚ) / 100) ≤ 1 := by
  rw [query_chatbot_ok env question k sel emb hits txt hv he hs hg]
  set avg : ℚ := if hits = [] then 0 else (hits.map Hit.score).sum / hits.length with havg
  have havg0 : 0 ≤ avg ∧ avg ≤ 1 := by
    rw [havg]
    split_ifs with hnil
    · norm_num
    · have hlen : 0 < hits.length := List.length_pos.mpr hnil
      have hsum0 : 0 ≤ (hits.map Hit.score).sum := by
        apply List.sum_nonneg
        intro x hx
        obtain ⟨h, hh, rfl⟩ := List.mem_map.mp hx
        exact (hscore h hh).1
      have hsum1 : (hits.map Hit.score).sum ≤ (hits.length : ℚ) := by
        have := List.sum_le_card_nsmul (hits.map Hit.score) 1 (by
          intro x hx
          obtain ⟨h, hh, rfl⟩ := List.mem_map.mp hx
          exact (hscore h hh).2)
        simpa using this
      have hlenq : (0 : ℚ) < (hits.length : ℚ) := by exact_mod_cast hlen
      constructor
      · exact div_nonneg hsum0 (le_of_lt hlenq)
      · rw [div_le_one hlenq]
        exact hsum1
  have h0 : (0 : ℤ) ≤ pyRound (avg * 100) :=
    le_pyRound 0 (avg * 100) (by push_cast; nlinarith [havg0.1])
  have h100 : pyRound (avg * 100) ≤ 100 :=
    pyRound_le 100 (avg * 100) (by push_cast; nlinarith [havg0.2])
  refine ⟨pyRound (avg * 100), h0, h100, rfl, ?_, ?_⟩
  · apply div_nonneg _ (by norm_num)
    exact_mod_cast h0
  · rw [div_le_one (by norm_num)]
    exact_mod_cast h100

/-- Witness for C7 (amended) at two hits with scores 0.9 and 0.8. -/
theorem confidence_in_unit_interval_witness :
    ∃ n : ℤ, 0 ≤ n ∧ n ≤ 100 ∧
      (query_chatbot envTwoHits "what is ros" 5 none).1.map Answer.confidence =
        .ok ((n : ℚ) / 100) ∧
      0 ≤ ((n : ℚ) / 100) ∧ ((n : ℚ) / 100) ≤ 1 :=
  confidence_in_unit_interval envTwoHits "what is ros" 5 none [1/2]
    [⟨1, 9/10, "tA", "m1", "f1"⟩, ⟨2, 8/10, "tB", "m1", "f2"⟩] "generated"
    (by decide) rfl rfl rfl
    (by
      intro h hh
      simp only [List.mem_cons, List.not_mem_nil, or_false] at hh
      rcases hh with rfl | rfl <;> norm_num)

/-- C7 counterexample: the code performs no clamping, so a hit with
cosine similarity score −1 (a possible vector-index output) yields
confidence −1, outside [0,1] — refuting the claim for every possible
sequence of similarity scores. -/
theorem negative_confidence_counterexample :
    (query_chatbot envNegativeScore "what is ros" 5 none).1.map Answer.confidence =
      .ok (-1) ∧ ¬ (0 ≤ (-1 : ℚ)) := by
  constructor
  · rw [query_chatbot_ok envNegativeScore "what is ros" 5 none [1/2]
      [⟨1, -1, "tA", "m1", "f1"⟩] "generated" (by decide) rfl rfl rfl]
    dsimp only [Except.map]
    congr 1
    rw [if_neg (by simp)]
    simp only [List.map_cons, List.map_nil, List.sum_cons, List.sum_nil, List.length_cons,
      List.length_nil, pyRound2, pyRound]
    norm_num
  · norm_num

/-! ### Theorems about the token-window chunker -/

/-- One-step unfolding of the chunking loop with fuel left. -/
theorem chunkTextGo_succ (size overlap : Nat) (tokens : List Nat) (fuel : Nat) (s : Int) :
    chunkTextGo size overlap tokens (fuel + 1) s =
      if s < (tokens.length : Int) then
        match chunkTextGo size overlap tokens fuel ((s + size) - overlap) with
        | none => none
        | some rest => some (pySlice tokens s (s + size) :: rest)
      else some [] := rfl

theorem chunkTextGo_stuck (size overlap : Nat) (tokens : List Nat)
    (hov : size ≤ overlap) (hne : tokens ≠ []) :
    ∀ (fuel : Nat) (s : Int), s ≤ 0 → chunkTextGo size overlap tokens fuel s = none := by
  intro fuel
  induction fuel with
  | zero => intro s _; rfl
  | succ fuel ih =>
    intro s hs
    have hlen : 0 < tokens.length := List.length_pos.mpr hne
    have hlt : s < (tokens.length : Int) := by
      have h1 : (0 : Int) < (tokens.length : Int) := by exact_mod_cast hlen
      omega
    rw [chunkTextGo_succ, if_pos hlt, ih ((s + size) - overlap) (by omega)]

/-- C4 (amended): the chunker performs no validation of the window
parameters; with `overlap ≥ window_size` and a nonempty token
sequence the input is not rejected — instead the chunking loop never
terminates (for every amount of fuel the loop is still running), and
the chunker itself never reaches an embedding call. -/
theorem degenerate_overlap_never_terminates (size overlap : Nat) (tokens : List Nat)
    (hov : size ≤ overlap) (hne : tokens ≠ []) :
    ∀ fuel : Nat, chunkTextGo size overlap tokens fuel 0 = none :=
  fun fuel => chunkTextGo_stuck size overlap tokens hov hne fuel 0 le_rfl

/-- Witness for C4 (amended) at window_size = overlap = 2 on 3 tokens
with fuel 7. -/
theorem degenerate_overlap_never_terminates_witness :
    chunkTextGo 2 2 [0, 1, 2] 7 0 = none :=
  degenerate_overlap_never_terminates 2 2 [0, 1, 2] le_rfl (by decide) 7

/-- C4 counterexample: with overlap = window_size = 2 on the 3-token
input [0,1,2] the chunk operation does not terminate with a rejection
(or any result) even after 100 loop iterations — the claimed
validation of `0 ≤ overlap < window_size` does not exist. -/
theorem degenerate_overlap_not_rejected_counterexample :
    chunkTextGo 2 2 [0, 1, 2] 100 0 = none := by decide

/-- C6 (amended): with `0 ≤ overlap < window_size`, a nonempty input
yields exactly one chunk precisely when its token count is at most
`window_size − overlap`; the claim as stated (token count below
`window_size`) is refuted by the counterexample. -/
theorem short_input_single_chunk (size overlap : Nat) (tokens : List Nat)
    (hov : overlap < size) (hne : tokens ≠ [])
    (hshort : tokens.length ≤ size - overlap) :
    chunk_text size overlap tokens = some [tokens] := by
  obtain ⟨n, hn⟩ : ∃ n, tokens.length = n + 1 := by
    have hpos : 0 < tokens.length := List.length_pos.mpr hne
    exact ⟨tokens.length - 1, by omega⟩
  have hlt0 : (((0 : Nat) : Int)) < (tokens.length : Int) := by
    have hpos : 0 < tokens.length := List.length_pos.mpr hne
    exact_mod_cast hpos
  have hcast : ((((0 : Nat) : Int)) + (size : Int)) - (overlap : Int)
      = ((size - overlap : Nat) : Int) := by omega
  have hstop : ¬ (((size - overlap : Nat) : Int) < (tokens.length : Int)) := by
    push_neg
    exact_mod_cast hshort
  show chunkTextGo size overlap tokens (tokens.length + 1) (((0 : Nat) : Int)) = some [tokens]
  rw [hn, chunkTextGo_succ, if_pos hlt0, hcast]
  cases n with
  | zero =>
    rw [chunkTextGo_succ, if_neg hstop]
    rw [pySlice_natCast tokens 0 size]
    rw [List.drop_zero, List.take_of_length_le (by omega)]
  | succ m =>
    rw [chunkTextGo_succ, if_neg hstop]
    rw [pySlice_natCast tokens 0 size]
    rw [List.drop_zero, List.take_of_length_le (by omega)]

/-- Witness for C6 (amended): 2 tokens, window 3, overlap 1 gives the
single chunk equal to the whole input. -/
theorem short_input_single_chunk_witness :
    chunk_text 3 1 [5, 6] = some [[5, 6]] :=
  short_input_single_chunk 3 1 [5, 6] (by decide) (by decide) (by decide)

/-- C6 counterexample: the 2-token input [7,8] is shorter than the
window_size 3, yet with overlap 2 the chunker emits two chunks, not
one — "shorter than window_size" does not imply a single chunk. -/
theorem short_input_single_chunk_counterexample :
    ([7, 8] : List Nat).length < 3 ∧
      chunk_text 3 2 [7, 8] = some [[7, 8], [8]] ∧
      ([[7, 8], [8]] : List (List Nat)).length = 2 := by decide

theorem chunkTextGo_consecutive (size overlap : Nat) (tokens : List Nat) (hov : overlap < size) :
    ∀ (fuel : Nat) (s : Nat) (cs : List (List Nat)),
      chunkTextGo size overlap tokens fuel ((s : Nat) : Int) = some cs →
      ∀ (i : Nat) (c1 c2 : List Nat) (tl : List (List Nat)),
        cs.drop i = c1 :: c2 :: tl → c1.length = size →
        lastUnits overlap c1 = c2.take overlap := by
  intro fuel
  induction fuel with
  | zero =>
    intro s cs h
    exact absurd h (by simp [chunkTextGo])
  | succ fuel ih =>
    intro s cs h i c1 c2 tl hdrop hfull
    rw [chunkTextGo_succ] at h
    by_cases hlt : ((s : Nat) : Int) < (tokens.length : Int)
    case neg =>
      rw [if_neg hlt] at h
      obtain rfl : ([] : List (List Nat)) = cs := Option.some.inj h
      simp at hdrop
    case pos =>
      rw [if_pos hlt] at h
      have hcast : (((s : Nat) : Int) + (size : Int)) - (overlap : Int)
          = ((s + size - overlap : Nat) : Int) := by omega
      rw [hcast] at h
      cases hrec : chunkTextGo size overlap tokens fuel ((s + size - overlap : Nat) : Int) with
      | none =>
        rw [hrec] at h
        exact absurd h (by simp)
      | some rest =>
        rw [hrec] at h
        obtain rfl : pySlice tokens ((s : Nat) : Int) (((s : Nat) : Int) + (size : Int)) :: rest
            = cs := Option.some.inj h
        cases i with
        | succ j =>
          rw [List.drop_succ_cons] at hdrop
          exact ih (s + size - overlap) rest hrec j c1 c2 tl hdrop hfull
        | zero =>
          rw [List.drop_zero] at hdrop
          injection hdrop with h1 h2
          subst h1
          subst h2
          rw [pySlice_natCast tokens s size] at hfull ⊢
          have hlen : s + size ≤ tokens.length := by
            rw [List.length_take, List.length_drop] at hfull
            omega
          cases fuel with
          | zero => exact absurd hrec (by simp [chunkTextGo])
          | succ fuel2 =>
            rw [chunkTextGo_succ] at hrec
            by_cases hlt2 : ((s + size - overlap : Nat) : Int) < (tokens.length : Int)
            case neg =>
              rw [if_neg hlt2] at hrec
              exact absurd (Option.some.inj hrec) (by simp)
            case pos =>
              rw [if_pos hlt2] at hrec
              cases hrec3 : chunkTextGo size overlap tokens fuel2
                  ((((s + size - overlap : Nat) : Int) + (size : Int)) - (overlap : Int)) with
              | none =>
                rw [hrec3] at hrec
                exact absurd hrec (by simp)
              | some r2 =>
                rw [hrec3] at hrec
                have hc2 : pySlice tokens ((s + size - overlap : Nat) : Int)
                    (((s + size - overlap : Nat) : Int) + (size : Int)) = c2 :=
                  (List.cons.inj (Option.some.inj hrec)).1
                rw [← hc2, pySlice_natCast tokens (s + size - overlap) size]
                exact take_drop_overlap tokens s size overlap (le_of_lt hov) hlen

/-- C5 (amended): with `0 ≤ overlap < window_size`, for any two
consecutive emitted chunks the last `overlap` token units of chunk i
equal the first `overlap` units of chunk i+1 whenever chunk i has the
full window length; chunks shorter than `window_size` — those that
overrun the end of the token sequence, the final chunk among them —
are exempt, not only the final one as the claim states. -/
theorem chunk_overlap_property (size overlap : Nat) (tokens : List Nat)
    (cs : List (List Nat)) (i : Nat) (c1 c2 : List Nat) (tl : List (List Nat))
    (hov : overlap < size)
    (hres : chunk_text size overlap tokens = some cs)
    (hcons : cs.drop i = c1 :: c2 :: tl)
    (hfull : c1.length = size) :
    lastUnits overlap c1 = c2.take overlap := by
  have hres' : chunkTextGo size overlap tokens (tokens.length + 1) (((0 : Nat) : Int))
      = some cs := hres
  exact chunkTextGo_consecutive size overlap tokens hov (tokens.length + 1) 0 cs hres'
    i c1 c2 tl hcons hfull

/-- Witness for C5 (amended): tokens [0..4], window 3, overlap 1
chunks to [[0,1,2],[2,3,4],[4]]; the first pair overlaps in [2]. -/
theorem chunk_overlap_property_witness :
    lastUnits 1 [0, 1, 2] = List.take 1 [2, 3, 4] :=
  chunk_overlap_property 3 1 [0, 1, 2, 3, 4] [[0, 1, 2], [2, 3, 4], [4]] 0
    [0, 1, 2] [2, 3, 4] [[4]] (by decide) (by decide) (by decide) (by decide)

/-- C5 counterexample: tokens [0,1,2,3], window 3, overlap 2 emit
[[0,1,2],[1,2,3],[2,3],[3]]; the consecutive pair ([2,3],[3]) at
positions 2 and 3 — where [2,3] is NOT the final chunk — violates the
overlap property: the last 2 units of [2,3] are [2,3] but the first 2
units of [3] are [3]. -/
theorem chunk_overlap_property_counterexample :
    chunk_text 3 2 [0, 1, 2, 3] = some [[0, 1, 2], [1, 2, 3], [2, 3], [3]] ∧
      ([[0, 1, 2], [1, 2, 3], [2, 3], [3]] : List (List Nat)).drop 2 = [[2, 3], [3]] ∧
      lastUnits 2 [2, 3] ≠ List.take 2 [3] := by decide

end RAG